import Mathlib

/-!
Verification of the `lot_explore` development-potential analysis engine.

The definitions below are a shallow embedding of `backend/development_analyzer.py`
(class `DevelopmentAnalyzer`) and, for the comparison theorems, of
`backend/zoning_engine.py` (class `ZoningEngine`).  Python floats are embedded
as rationals (`ℚ`), Python ints as `ℤ`/`ℕ`, Python strings as `String`.
Functions that can raise a Python exception are embedded as `Except String _`,
with `Except.error` modelling the raised exception.  Narrative-only string
fields that no analyzed logic ever reads back (scenario `description`,
`key_benefits`, `constraints`, `unit_calculation_justification`,
`legal_citations`, and `BaseZoning.interpretation`) are omitted from the
record types; every field that any downstream computation branches on is kept
verbatim.
-/

namespace LotExplore

/-- Digit run to a natural number (helper for the embedding of Python `int`). -/
def digitsToNat (cs : List Char) : ℕ :=
  cs.foldl (fun acc c => acc * 10 + (c.toNat - 48)) 0

/-- Models the Python built-in `int(s)` applied to a decimal string: optional
surrounding spaces, an optional sign, then one or more decimal digits.
`none` models the `ValueError` Python raises on any other input. -/
def pyIntOfString (s : String) : Option ℤ :=
  let cs := ((s.data.dropWhile (· = ' ')).reverse.dropWhile (· = ' ')).reverse
  let core : List Char → Option ℤ := fun ds =>
    if !ds.isEmpty && ds.all Char.isDigit then some (digitsToNat ds) else none
  match cs with
  | '-' :: rest => (core rest).map (fun n => -n)
  | '+' :: rest => core rest
  | _ => core cs

/-- Models the Python built-in `round(x)` to an integer: round half to even. -/
def pyRound (q : ℚ) : ℤ :=
  let f := ⌊q⌋
  let frac := q - (f : ℚ)
  if frac < 1/2 then f
  else if 1/2 < frac then f + 1
  else if f % 2 = 0 then f else f + 1

/-- Models the Python f-string conversion `:.0f` (format with zero decimals). -/
def format0f (q : ℚ) : String := toString (pyRound q)

/-- Auxiliary substring search on character lists. -/
def strContainsAux (pat : List Char) : List Char → Bool
  | [] => pat.isEmpty
  | c :: rest => pat.isPrefixOf (c :: rest) || strContainsAux pat rest

/-- Models the Python membership test `pat in s` for strings. -/
def strContains (s pat : String) : Bool := strContainsAux pat.data s.data

/-- Models Python `x or d` for an optional float `x`: `None` and `0` are falsy. -/
def pyOrQ (x : Option ℚ) (d : ℚ) : ℚ :=
  match x with
  | none => d
  | some v => if v = 0 then d else v

/-- `BaseZoning` dataclass (the `interpretation` narrative field is omitted). -/
structure BaseZoning where
  zone : String
  height_district : String
  complete_zone : String
  density_factor : ℤ
  baseline_units : ℚ
  height_limit_ft : ℚ
  far_limit : ℚ
deriving DecidableEq

/-- `ExistingConditions` dataclass. -/
structure ExistingConditions where
  units : ℤ
  building_sf : ℚ
  year_built : String
  is_rso : Bool
  replacement_required : ℤ
  above_baseline : Bool
  demolition_constraints : List String
deriving DecidableEq

/-- `IncentiveOpportunities` dataclass, restricted to the fields the scenario
generator reads (description strings and flags never read back are omitted). -/
structure IncentiveOpportunities where
  toc_tier : Option ℤ := none
  state_density_bonus : Bool := false
  ed1_eligible : Bool := false
  sb9_eligible : Bool := false
  sb9_lot_split_eligible : Bool := false
  sb35_eligible : Bool := false
  sb330_eligible : Bool := false
  ab2011_eligible : Bool := false
  ab1287_eligible : Bool := false
  sb684_eligible : Bool := false
deriving DecidableEq

/-- `Constraints` dataclass. -/
structure Constraints where
  environmental_hazards : List String
  historic_restrictions : List String
  overlay_requirements : List String
  rso_replacement_units : ℤ
deriving DecidableEq

/-- `DevelopmentScenario` dataclass, restricted to the fields that downstream
logic (consolidation, scoring, bottom line) reads.  `simplicity_score` models
the attribute set dynamically by `_consolidate_scenarios`; `none` models the
attribute being absent (the scorer reads it via getattr with default 0). -/
structure DevelopmentScenario where
  name : String
  total_units : ℚ
  net_new_units : ℚ
  affordability_required : String
  approval_path : String
  feasibility : String
  simplicity_score : Option ℕ := none
  recommendation_score : ℚ := 0
  recommendation_reason : String := ""
deriving DecidableEq

/-- `DevelopmentAnalyzer.DENSITY_FACTORS` (square feet of lot per unit). -/
def DENSITY_FACTORS : List (String × ℤ) :=
  [("R1", 5000), ("RS", 5000), ("RE", 2000), ("RA", 2000),
   ("RD1.5", 1500), ("RD2", 2000), ("RD3", 1500), ("RD4", 1200),
   ("RD5", 1000), ("RD6", 800),
   ("RU", 800), ("R2", 800), ("R3", 800), ("R4", 400), ("R5", 200)]

/-- `DevelopmentAnalyzer.HEIGHT_LIMITS`; the `NL` entry is Python `None`. -/
def HEIGHT_LIMITS : List (String × Option ℚ) :=
  [("1", some 45), ("1L", some 30), ("1VL", some 25), ("1XL", some 20),
   ("2", some 75), ("3", some 150), ("4", some 275), ("NL", none)]

/-- `DevelopmentAnalyzer.FAR_LIMITS`; the `NL` entry is Python `None`. -/
def FAR_LIMITS : List (String × Option ℚ) :=
  [("1", some 1.5), ("2", some 6.0), ("3", some 6.0), ("4", some 13.0), ("NL", none)]

/-- The guarded baseline computation in `_analyze_base_zoning`:
`lot_area / density_factor if density_factor > 0 else 0`. -/
def baselineUnitsOf (density_factor : ℤ) (lot_area : ℚ) : ℚ :=
  if 0 < density_factor then lot_area / (density_factor : ℚ) else 0

/-- `DevelopmentAnalyzer._analyze_base_zoning`. -/
def analyze_base_zoning (zone height_district : String) (lot_area : ℚ) : BaseZoning :=
  let density_factor := (DENSITY_FACTORS.lookup zone).getD 1000
  let baseline_units := baselineUnitsOf density_factor lot_area
  let height_limit := (HEIGHT_LIMITS.lookup height_district).getD (some 45)
  let far_limit := (FAR_LIMITS.lookup height_district).getD (some 1.5)
  { zone := zone
    height_district := height_district
    complete_zone := if height_district ≠ "" then zone ++ "-" ++ height_district else zone
    density_factor := density_factor
    baseline_units := baseline_units
    height_limit_ft := pyOrQ height_limit 200
    far_limit := pyOrQ far_limit 6.0 }

/-- `DevelopmentAnalyzer._analyze_existing_conditions`.  The result is an
`Except` because the source evaluates `int(year_built or 0)` whenever
`year_built` is a non-empty string; for a non-empty, non-numeric string that
expression raises `ValueError`, modelled by `Except.error`. -/
def analyze_existing_conditions (existing_units : ℤ) (building_sf : ℚ)
    (year_built : String) (is_rso : Bool) (baseline_units : ℚ) :
    Except String ExistingConditions :=
  let replacement_required := if is_rso then existing_units else 0
  let above_baseline := decide ((existing_units : ℚ) > baseline_units)
  let rsoNotes :=
    if is_rso then ["RSO replacement: Must replace existing rent-stabilized units 1:1"] else []
  let yearCheck : Except String Bool :=
    if year_built = "" then .ok false
    else match pyIntOfString year_built with
      | none => .error "ValueError: invalid literal for int() with base 10"
      | some y => .ok (decide (y < 1978))
  yearCheck.map fun pre1978 =>
    { units := existing_units
      building_sf := building_sf
      year_built := year_built
      is_rso := is_rso
      replacement_required := replacement_required
      above_baseline := above_baseline
      demolition_constraints :=
        rsoNotes ++ if pre1978 then ["Historic review may be required for pre-1978 buildings"] else [] }

/-- `DevelopmentAnalyzer._analyze_constraints`.  The three booleans model the
truthiness of the raw-data keys `METHANE_ZONE`, `ALQUIST_PRIOLO_FAULT_ZONE`
and `LIQUEFACTION`.  The `Except` models the `ValueError` raised by
`int(existing.year_built or 0)` on a non-empty, non-numeric year string. -/
def analyze_constraints (methane fault liquefaction : Bool)
    (existing : ExistingConditions) : Except String Constraints :=
  let hazards :=
    (if methane then ["Methane buffer zone - special foundation/venting required"] else []) ++
    (if fault then ["Seismic fault zone - enhanced seismic design required"] else []) ++
    (if liquefaction then ["Liquefaction risk - foundation considerations"] else [])
  let histCheck : Except String Bool :=
    if existing.year_built = "" then .ok false
    else match pyIntOfString existing.year_built with
      | none => .error "ValueError: invalid literal for int() with base 10"
      | some y => .ok (decide (y < 1960))
  histCheck.map fun pre1960 =>
    { environmental_hazards := hazards
      historic_restrictions :=
        if pre1960 then ["Pre-1960 building may require historic review"] else []
      overlay_requirements := []
      rso_replacement_units := existing.replacement_required }

/-- TOC tier → bonus percent table in `_generate_scenarios`:
`{1: 50, 2: 60, 3: 70, 4: 80}.get(tier, 50)`. -/
def analyzerTocBonusPct (tier : ℤ) : ℤ :=
  (([(1, 50), (2, 60), (3, 70), (4, 80)] : List (ℤ × ℤ)).lookup tier).getD 50

/-- TOC tier → affordability requirement table in `_generate_scenarios`. -/
def tocAffordabilityReq (tier : ℤ) : String :=
  (([(1, "8% VLI"), (2, "9% VLI"), (3, "10% VLI"), (4, "11% VLI")] :
    List (ℤ × String)).lookup tier).getD "11% VLI"

/-- Scenario 1 of `_generate_scenarios`: By-Right. -/
def by_right_scenario (base : BaseZoning) (existing : ExistingConditions)
    (hazardCount : ℕ) : DevelopmentScenario :=
  let by_right_units := max base.baseline_units (existing.units : ℚ)
  { name := "By-Right"
    total_units := by_right_units
    net_new_units := max 0 (by_right_units - (existing.units : ℚ))
    affordability_required := "None"
    approval_path := "Administrative (if no demo) or CPC (if demo required)"
    feasibility :=
      if existing.is_rso ∧ (existing.units : ℚ) > base.baseline_units then
        "Medium - Existing building exceeds base zoning density"
      else if hazardCount > 2 then "Medium - Multiple environmental hazards present"
      else "High - Clear regulatory path" }

/-- Scenario 2 of `_generate_scenarios`: TOC (emitted when the tier is truthy). -/
def toc_scenario (base : BaseZoning) (existing : ExistingConditions)
    (hazardCount : ℕ) (tier : ℤ) : DevelopmentScenario :=
  let bonus_pct := analyzerTocBonusPct tier
  let toc_units := base.baseline_units * (1 + (bonus_pct : ℚ) / 100)
  let toc_total := max toc_units (existing.units : ℚ)
  { name := "TOC Tier " ++ toString tier
    total_units := toc_total
    net_new_units := toc_total - (existing.units : ℚ)
    affordability_required := tocAffordabilityReq tier
    approval_path := "Administrative approval (no CUP required)"
    feasibility :=
      if existing.is_rso then "High - RSO replacement required but TOC streamlines process"
      else if hazardCount > 1 then "Medium - Environmental hazards may complicate construction"
      else "High - Clear path with strong incentives" }

/-- Scenario 3 of `_generate_scenarios`: State Density Bonus
(`sdb_units = base.baseline_units * 1.50`, the 50 percent maximum bonus). -/
def sdb_scenario (base : BaseZoning) (existing : ExistingConditions) : DevelopmentScenario :=
  let sdb_units := base.baseline_units * 1.50
  let sdb_total := max sdb_units (existing.units : ℚ)
  { name := "State Density Bonus"
    total_units := sdb_total
    net_new_units := sdb_total - (existing.units : ℚ)
    affordability_required :=
      "15% Very Low Income units (50% bonus) or sliding scale from 5% VLI (20% bonus)"
    approval_path := "By-right with density bonus application (Gov Code 65915)"
    feasibility :=
      if existing.is_rso ∧ (existing.units : ℚ) > base.baseline_units then
        "Medium - Complex due to over-built RSO property"
      else if base.zone.startsWith "R" ∧ base.zone ≠ "R1" ∧ base.zone ≠ "RS" then
        "High - Multi-family zones have established SDB precedent"
      else "High - Straightforward application" }

/-- Scenario 4a of `_generate_scenarios`: SB-9 lot split + duplex. -/
def sb9_split_scenario (existing : ExistingConditions) : DevelopmentScenario :=
  let sb9_split_total := max (4 : ℚ) (existing.units : ℚ)
  { name := "SB-9 Lot Split + Duplex"
    total_units := sb9_split_total
    net_new_units := sb9_split_total - (existing.units : ℚ)
    affordability_required := "None"
    approval_path := "Ministerial approval (SB-9, Gov Code 66411.7)"
    feasibility :=
      if existing.units > 1 then "Medium - Existing multi-unit may complicate lot split process"
      else "High - Clear ministerial approval pathway for lot split" }

/-- Scenario 4b of `_generate_scenarios`: SB-9 duplex. -/
def sb9_duplex_scenario (existing : ExistingConditions) : DevelopmentScenario :=
  let sb9_duplex_total := max (2 : ℚ) (existing.units : ℚ)
  { name := "SB-9 Duplex"
    total_units := sb9_duplex_total
    net_new_units := sb9_duplex_total - (existing.units : ℚ)
    affordability_required := "None"
    approval_path := "Ministerial approval (SB-9, Gov Code 65852.21)"
    feasibility :=
      if existing.units > 1 then "Medium - May need to reduce units to comply with duplex limit"
      else "High - Simple ministerial conversion to duplex" }

/-- The ED-1 feasibility cascade.  Its third branch evaluates
`int(base.zone[1:])`, which raises `ValueError` for zones such as `RS`, `RE`
or `RD1.5` whose tail is not a decimal integer; `Except.error` models that. -/
def ed1_feasibility (base : BaseZoning) (existing : ExistingConditions)
    (hazardCount : ℕ) : Except String String :=
  if existing.is_rso ∧ existing.units ≥ 5 then
    .ok "Medium - RSO replacement complex but ED-1 provides strong tools"
  else if hazardCount ≥ 2 then .ok "Medium - Environmental hazards require mitigation"
  else if base.zone.startsWith "R" then
    match pyIntOfString (base.zone.drop 1) with
    | none => .error "ValueError: invalid literal for int() with base 10"
    | some n =>
      .ok (if n ≥ 3 then "High - Well-suited for higher density affordable housing"
           else "High - Strong policy support and streamlined process")
  else .ok "High - Strong policy support and streamlined process"

/-- Scenario 5 of `_generate_scenarios`: 100 percent affordable (ED-1). -/
def ed1_scenario (base : BaseZoning) (existing : ExistingConditions)
    (feas : String) : DevelopmentScenario :=
  let affordable_units := base.baseline_units * 2.0
  let affordable_total := max affordable_units (existing.units : ℚ)
  { name := "100% Affordable (ED-1)"
    total_units := affordable_total
    net_new_units := affordable_total - (existing.units : ℚ)
    affordability_required := "100% affordable housing (mix of VLI, LI, Moderate allowed)"
    approval_path := "Ministerial approval (Executive Directive 1)"
    feasibility := feas }

/-- Scenario 6 of `_generate_scenarios`: SB-35 streamlined affordable. -/
def sb35_scenario (base : BaseZoning) (existing : ExistingConditions) : DevelopmentScenario :=
  let sb35_units := base.baseline_units * 1.25
  let sb35_total := max sb35_units (existing.units : ℚ)
  { name := "SB-35 Streamlined Affordable"
    total_units := sb35_total
    net_new_units := sb35_total - (existing.units : ℚ)
    affordability_required := "20% affordable housing (varies by income mix)"
    approval_path := "Ministerial approval (SB-35, Gov Code 65913.4)"
    feasibility := "High - Strong legal protection against denial" }

/-- Scenario 7 of `_generate_scenarios`: AB-2011 commercial conversion. -/
def ab2011_scenario (existing : ExistingConditions) (lot_area : ℚ) : DevelopmentScenario :=
  let ab2011_units := lot_area / 400
  let ab2011_total := max ab2011_units (existing.units : ℚ)
  { name := "AB-2011 Commercial Conversion"
    total_units := ab2011_total
    net_new_units := ab2011_total - (existing.units : ℚ)
    affordability_required := "15% affordable housing or comparable fees"
    approval_path := "Ministerial approval (AB-2011, Gov Code 65912.111)"
    feasibility := "High - Clear conversion path for commercial properties" }

/-- Scenario 8 of `_generate_scenarios`: AB-1287 enhanced density bonus. -/
def ab1287_scenario (base : BaseZoning) (existing : ExistingConditions) : DevelopmentScenario :=
  let ab1287_units := base.baseline_units * 2.0
  let ab1287_total := max ab1287_units (existing.units : ℚ)
  { name := "AB-1287 Enhanced Density Bonus"
    total_units := ab1287_total
    net_new_units := ab1287_total - (existing.units : ℚ)
    affordability_required := "Mix of moderate and very low income units for maximum bonus"
    approval_path := "By-right with enhanced density bonus application"
    feasibility := "High - Enhanced version of proven density bonus law" }

/-- Scenario 9 of `_generate_scenarios`: SB-330 Builder\x27s Remedy. -/
def sb330_scenario (base : BaseZoning) (existing : ExistingConditions) : DevelopmentScenario :=
  let sb330_units := base.baseline_units * 1.5
  let sb330_total := max sb330_units (existing.units : ℚ)
  { name := "SB-330 Builder\x27s Remedy"
    total_units := sb330_total
    net_new_units := sb330_total - (existing.units : ℚ)
    affordability_required := "20% affordable housing"
    approval_path := "Ministerial approval with Builder\x27s Remedy protections"
    feasibility := "Medium - Depends on housing element certification status" }

/-- Scenario 10 of `_generate_scenarios`: SB-684 small-site housing
(`sb684_units = min(10.0, max(max_by_zoning, 3.0))`, then the replacement
floor `max(sb684_units, existing.units)`). -/
def sb684_scenario (base : BaseZoning) (existing : ExistingConditions) : DevelopmentScenario :=
  let sb684_units := min (10.0 : ℚ) (max base.baseline_units 3.0)
  let sb684_total := max sb684_units (existing.units : ℚ)
  { name := "SB-684 Small Site Housing"
    total_units := sb684_total
    net_new_units := sb684_total - (existing.units : ℚ)
    affordability_required := "None"
    approval_path := "Ministerial approval (SB-684) - 60 day maximum"
    feasibility := "High - Simple ministerial process for small projects" }

/-- A scenario guarded by an eligibility condition (`if c: scenarios.append(x)`). -/
def optScen (c : Prop) [Decidable c] (s : DevelopmentScenario) : List DevelopmentScenario :=
  if c then [s] else []

/-- The threshold ladder of `_score_scenarios` mapping the consolidation
simplicity score to the simplicity contribution (points, reason label). -/
def simplicityLadder (simplicity : ℕ) : ℚ × String :=
  if simplicity ≤ 2 then (4.0, "very easy to build")
  else if simplicity ≤ 5 then (3.0, "easy to build")
  else if simplicity ≤ 8 then (2.0, "moderate complexity")
  else (1.0, "complex process")

/-- The simplicity contribution of `_score_scenarios` for one scenario
(getattr with default 0, then the threshold ladder). -/
def simplicityPoints (s : DevelopmentScenario) : ℚ :=
  (simplicityLadder (s.simplicity_score.getD 0)).1

/-- The unit-yield contribution of `_score_scenarios`:
`min(total_units / baseline_units * 1.5, 3.0)` when `baseline_units > 0`,
nothing added otherwise. -/
def unitYieldPoints (baseline_units total_units : ℚ) : ℚ :=
  if baseline_units > 0 then min (total_units / baseline_units * 1.5) 3.0 else 0

/-- The feasibility contribution of `_score_scenarios` (substring-matched). -/
def feasibilityPoints (feasibility : String) : ℚ × String :=
  if strContains feasibility "High" then (3.0, "high feasibility")
  else if strContains feasibility "Medium" then (2.0, "medium feasibility")
  else (1.0, "challenging feasibility")

/-- The per-scenario body of `_score_scenarios`: computes the recommendation
score and reason (mutating only those two fields). -/
def score_scenario (base : BaseZoning) (existing : ExistingConditions)
    (lot_area : ℚ) (s : DevelopmentScenario) : DevelopmentScenario :=
  let p1 := simplicityPoints s
  let r1 := (simplicityLadder (s.simplicity_score.getD 0)).2
  let yieldReasons : List String :=
    if base.baseline_units > 0 then
      let unit_multiplier := s.total_units / base.baseline_units
      if unit_multiplier ≥ 2.0 then ["excellent unit yield"]
      else if unit_multiplier ≥ 1.5 then ["good unit yield"]
      else if unit_multiplier ≥ 1.2 then ["modest unit yield"]
      else []
    else []
  let p2 := unitYieldPoints base.baseline_units s.total_units
  let p3 := (feasibilityPoints s.feasibility).1
  let r3 := (feasibilityPoints s.feasibility).2
  let smallLot :=
    lot_area < 3000 ∧ (strContains s.name "SB-9" = true ∨ strContains s.name "SB-684" = true)
  let b1 : ℚ := if smallLot then 1.0 else 0
  let rb1 : List String := if smallLot then ["perfect for small lots"] else []
  let r1Zone := base.zone = "R1" ∧ strContains s.name "SB-9" = true
  let b2 : ℚ := if r1Zone then 2.0 else 0
  let rb2 : List String := if r1Zone then ["ideal for R1 properties"] else []
  let rsoFit :=
    existing.is_rso = true ∧
      (strContains s.name "TOC" = true ∨ strContains s.name "State Density" = true)
  let b3 : ℚ := if rsoFit then 0.5 else 0
  let rb3 : List String := if rsoFit then ["handles RSO well"] else []
  let reasons := [r1] ++ yieldReasons ++ [r3] ++ rb1 ++ rb2 ++ rb3
  { s with
    recommendation_score := p1 + p2 + p3 + b1 + b2 + b3
    recommendation_reason := "Recommended because of " ++ String.intercalate ", " (reasons.take 3) }

/-- `DevelopmentAnalyzer._score_scenarios`: score every scenario, then sort by
recommendation score, highest first (Python stable sort with reverse=True). -/
def score_scenarios (base : BaseZoning) (existing : ExistingConditions)
    (lot_area : ℚ) (scenarios : List DevelopmentScenario) : List DevelopmentScenario :=
  (scenarios.map (score_scenario base existing lot_area)).mergeSort
    (fun a b => decide (b.recommendation_score ≤ a.recommendation_score))

/-- `DevelopmentAnalyzer._generate_scenarios`.  Emits, in source order:
By-Right always; TOC when the tier is truthy; State Density Bonus; SB-9 lot
split + duplex; SB-9 duplex; ED-1 (whose feasibility cascade can raise, see
`ed1_feasibility`); SB-35; AB-2011 (commercial zones only); AB-1287; SB-330;
SB-684 — each behind its eligibility flag — then scores the list. -/
def generate_scenarios (base : BaseZoning) (existing : ExistingConditions)
    (incentives : IncentiveOpportunities) (constraints : Constraints)
    (lot_area : ℚ) : Except String (List DevelopmentScenario) :=
  let hazardCount := constraints.environmental_hazards.length
  let ed1Part : Except String (List DevelopmentScenario) :=
    if incentives.ed1_eligible then
      (ed1_feasibility base existing hazardCount).map
        (fun f => [ed1_scenario base existing f])
    else .ok []
  ed1Part.map fun ed1List =>
    score_scenarios base existing lot_area
      ([by_right_scenario base existing hazardCount]
        ++ (match incentives.toc_tier with
            | none => []
            | some tier =>
              if tier = 0 then [] else [toc_scenario base existing hazardCount tier])
        ++ optScen (incentives.state_density_bonus = true) (sdb_scenario base existing)
        ++ optScen (incentives.sb9_eligible = true ∧ incentives.sb9_lot_split_eligible = true)
            (sb9_split_scenario existing)
        ++ optScen (incentives.sb9_eligible = true) (sb9_duplex_scenario existing)
        ++ ed1List
        ++ optScen (incentives.sb35_eligible = true) (sb35_scenario base existing)
        ++ optScen (incentives.ab2011_eligible = true ∧ base.zone.startsWith "C" = true)
            (ab2011_scenario existing lot_area)
        ++ optScen (incentives.ab1287_eligible = true) (ab1287_scenario base existing)
        ++ optScen (incentives.sb330_eligible = true) (sb330_scenario base existing)
        ++ optScen (incentives.sb684_eligible = true) (sb684_scenario base existing))

/-- The simplicity score computed inside `_consolidate_scenarios`:
affordability penalty + approval-path penalty + feasibility penalty, all by
Python substring tests. -/
def simplicity_score_of (s : DevelopmentScenario) : ℕ :=
  (if strContains s.affordability_required "None" then 0
   else if strContains s.affordability_required "100%" then 10 else 5) +
  (if strContains s.approval_path "Ministerial" then 0
   else if strContains s.approval_path "Administrative" then 2 else 5) +
  (if strContains s.feasibility "High" then 0
   else if strContains s.feasibility "Medium" then 3 else 8)

/-- The grouping key of `_consolidate_scenarios`: `round(scenario.total_units)`. -/
def roundedUnits (s : DevelopmentScenario) : ℤ := pyRound s.total_units

/-- First-occurrence deduplication, modelling the insertion order of the keys
of the Python dict `unit_groups`. -/
def uniqueKeysAux : List ℤ → List ℤ
  | [] => []
  | k :: ks => k :: uniqueKeysAux (ks.filter (fun x => decide (x ≠ k)))
termination_by l => l.length
decreasing_by
  simp only [List.length_cons]
  exact Nat.lt_succ_of_le (List.length_filter_le _ _)

/-- Python `min(group, key=...)`: the first element attaining the minimum. -/
def pickMin (m : DevelopmentScenario) : List DevelopmentScenario → DevelopmentScenario
  | [] => m
  | s :: rest => pickMin (if simplicity_score_of s < simplicity_score_of m then s else m) rest

/-- The mutation `_consolidate_scenarios` applies to the surviving scenario of
a multi-scenario group: its `simplicity_score` attribute is set and its
recommendation reason is overwritten. -/
def annotateSurvivor (k : ℤ) (s : DevelopmentScenario) : DevelopmentScenario :=
  { s with
    simplicity_score := some (simplicity_score_of s)
    recommendation_reason := "Simplest path to achieve " ++ toString k ++ " units" }

/-- The per-group choice of `_consolidate_scenarios`: singleton groups pass
through unchanged; larger groups keep the first scenario with the minimum
simplicity score, annotated. -/
def pickFromGroup (k : ℤ) : List DevelopmentScenario → Option DevelopmentScenario
  | [] => none
  | [s] => some s
  | s :: rest => some (annotateSurvivor k (pickMin s rest))

/-- `DevelopmentAnalyzer._consolidate_scenarios`: group by rounded unit count
(dict insertion order), keep one scenario per group. -/
def consolidate_scenarios (scenarios : List DevelopmentScenario) : List DevelopmentScenario :=
  (uniqueKeysAux (scenarios.map roundedUnits)).filterMap
    (fun k => pickFromGroup k (scenarios.filter (fun s => decide (roundedUnits s = k))))

/-- Python `max(scenarios, key=lambda x: x.total_units)`: keeps the first of
equal maxima. -/
def maxByTotal (m : DevelopmentScenario) : List DevelopmentScenario → DevelopmentScenario
  | [] => m
  | s :: rest => maxByTotal (if s.total_units > m.total_units then s else m) rest

/-- `DevelopmentAnalyzer._generate_bottom_line`.  Note the source filters with
`s.feasibility in ["High", "Medium"]` — exact string equality, not the
substring matching used elsewhere. -/
def generate_bottom_line (base : BaseZoning) (existing : ExistingConditions)
    (scenarios : List DevelopmentScenario) : String :=
  let baseline_note :=
    if existing.above_baseline then
      "Site is already above base " ++ base.zone ++ " density (" ++
        toString existing.units ++ " existing vs. " ++ format0f base.baseline_units ++
        " allowed by-right)."
    else
      "Site is under-built relative to base " ++ base.zone ++ " density (" ++
        toString existing.units ++ " existing vs. " ++ format0f base.baseline_units ++
        " allowed)."
  let rso_note :=
    if existing.is_rso then
      "RSO replacement requirement means any redevelopment must replace the " ++
        toString existing.units ++ " existing rent-stabilized units first."
    else "No RSO replacement requirements."
  let feasible_scenarios :=
    scenarios.filter (fun s => s.feasibility == "High" || s.feasibility == "Medium")
  let notes :=
    match feasible_scenarios with
    | [] =>
      ("Limited development potential under current zoning.",
       "Consider zoning changes or alternative strategies.")
    | f :: fs =>
      let best := maxByTotal f fs
      ("The real unlock is " ++ best.name ++ " (up to " ++ format0f best.total_units ++
         " units).",
       "Likely feasible outcome: " ++ format0f best.total_units ++
         " units total with +" ++ format0f best.net_new_units ++ " net new units.")
  baseline_note ++ " " ++ rso_note ++ " " ++ notes.1 ++ " " ++ notes.2

/-- The scenario portion of `analyze_development_potential`: generate, then
consolidate, then score and rank. -/
def analysis_scenarios (base : BaseZoning) (existing : ExistingConditions)
    (incentives : IncentiveOpportunities) (constraints : Constraints)
    (lot_area : ℚ) : Except String (List DevelopmentScenario) :=
  (generate_scenarios base existing incentives constraints lot_area).map
    (fun sc => score_scenarios base existing lot_area (consolidate_scenarios sc))

end LotExplore

namespace ZoningEngine

/-- `ZoningEngine.parse_zone`: split a zone string on `-`. -/
def parse_zone (zone_str : String) : String × Option String :=
  if zone_str = "" then ("", none)
  else if LotExplore.strContains zone_str "-" then
    match zone_str.splitOn "-" with
    | [] => ("", none)
    | [p] => (p, none)
    | p :: q :: _ => (p, some q)
  else (zone_str, none)

/-- `StateDensityBonus` dataclass of `zoning_engine.py`. -/
structure StateDensityBonus where
  eligible : Bool
  bonus_pct : ℚ := 0
  affordable_required : ℚ := 0
deriving DecidableEq

/-- `ZoningEngine.analyze_state_density_bonus`: eligibility for residential
zones other than R1/RS, with a hard-coded 35 percent maximum bonus. -/
def analyze_state_density_bonus (zone : String) : StateDensityBonus :=
  let base_zone := (parse_zone zone).1
  { eligible := base_zone.startsWith "R" && !(base_zone == "R1") && !(base_zone == "RS")
    bonus_pct := 35
    affordable_required := 11 }

/-- TOC tier → bonus percent table in `ZoningEngine.create_toc_scenario`:
`{1: 50, 2: 60, 3: 70, 4: 80}.get(toc.tier, 50)`. -/
def engineTocBonusPct (tier : ℤ) : ℤ :=
  (([(1, 50), (2, 60), (3, 70), (4, 80)] : List (ℤ × ℤ)).lookup tier).getD 50

/-- The `Scenario` dataclass of `zoning_engine.py` (fields the TOC scenario
sets). -/
structure EngineScenario where
  units : ℚ
  parking : ℚ := 0
  concessions : List String := []
deriving DecidableEq

/-- `ZoningEngine.create_toc_scenario`. -/
def create_toc_scenario (baseline_units baseline_parking : ℚ)
    (toc_eligible : Bool) (toc_tier : Option ℤ) : Option EngineScenario :=
  if toc_eligible = false ∨ toc_tier.getD 0 = 0 then none
  else
    let tier := toc_tier.getD 0
    let bonus_pct := engineTocBonusPct tier
    let units := baseline_units * (1 + (bonus_pct : ℚ) / 100)
    let parking := if tier ≥ 3 then 0 else baseline_parking * 0.5
    some { units := units, parking := parking, concessions := ["Height", "Parking", "Open Space"] }

end ZoningEngine

namespace LotExplore

theorem mem_optScen {c : Prop} [Decidable c] {x s : DevelopmentScenario}
    (h : s ∈ optScen c x) : s = x := by
  unfold optScen at h
  split at h
  · simpa using h
  · simp at h

theorem score_scenario_total (base : BaseZoning) (existing : ExistingConditions)
    (lot_area : ℚ) (s : DevelopmentScenario) :
    (score_scenario base existing lot_area s).total_units = s.total_units := rfl

theorem score_scenario_net (base : BaseZoning) (existing : ExistingConditions)
    (lot_area : ℚ) (s : DevelopmentScenario) :
    (score_scenario base existing lot_area s).net_new_units = s.net_new_units := rfl

theorem score_scenario_name (base : BaseZoning) (existing : ExistingConditions)
    (lot_area : ℚ) (s : DevelopmentScenario) :
    (score_scenario base existing lot_area s).name = s.name := rfl

/-- One of the eleven scenario shapes `_generate_scenarios` can emit. -/
def IsGeneratedScenario (base : BaseZoning) (existing : ExistingConditions)
    (hazardCount : ℕ) (lot_area : ℚ) (s₀ : DevelopmentScenario) : Prop :=
  s₀ = by_right_scenario base existing hazardCount ∨
  (∃ t, s₀ = toc_scenario base existing hazardCount t) ∨
  s₀ = sdb_scenario base existing ∨
  s₀ = sb9_split_scenario existing ∨
  s₀ = sb9_duplex_scenario existing ∨
  (∃ f, s₀ = ed1_scenario base existing f) ∨
  s₀ = sb35_scenario base existing ∨
  s₀ = ab2011_scenario existing lot_area ∨
  s₀ = ab1287_scenario base existing ∨
  s₀ = sb330_scenario base existing ∨
  s₀ = sb684_scenario base existing

/-- Membership characterization for `generate_scenarios`: every scenario of a
successful run is the scored image of one of the eleven constructors. -/
theorem generate_scenarios_mem {base : BaseZoning} {existing : ExistingConditions}
    {incentives : IncentiveOpportunities} {constraints : Constraints} {lot_area : ℚ}
    {l : List DevelopmentScenario} {s : DevelopmentScenario}
    (hok : generate_scenarios base existing incentives constraints lot_area = .ok l)
    (hs : s ∈ l) :
    ∃ s₀, s = score_scenario base existing lot_area s₀ ∧
      IsGeneratedScenario base existing constraints.environmental_hazards.length lot_area s₀ := by
  have key : ∀ (ed1List : List DevelopmentScenario),
      (∀ x ∈ ed1List, ∃ f, x = ed1_scenario base existing f) →
      l = score_scenarios base existing lot_area
        ([by_right_scenario base existing constraints.environmental_hazards.length]
          ++ (match incentives.toc_tier with
              | none => []
              | some tier =>
                if tier = 0 then []
                else [toc_scenario base existing constraints.environmental_hazards.length tier])
          ++ optScen (incentives.state_density_bonus = true) (sdb_scenario base existing)
          ++ optScen (incentives.sb9_eligible = true ∧ incentives.sb9_lot_split_eligible = true)
              (sb9_split_scenario existing)
          ++ optScen (incentives.sb9_eligible = true) (sb9_duplex_scenario existing)
          ++ ed1List
          ++ optScen (incentives.sb35_eligible = true) (sb35_scenario base existing)
          ++ optScen (incentives.ab2011_eligible = true ∧ base.zone.startsWith "C" = true)
              (ab2011_scenario existing lot_area)
          ++ optScen (incentives.ab1287_eligible = true) (ab1287_scenario base existing)
          ++ optScen (incentives.sb330_eligible = true) (sb330_scenario base existing)
          ++ optScen (incentives.sb684_eligible = true) (sb684_scenario base existing)) →
      ∃ s₀, s = score_scenario base existing lot_area s₀ ∧
        IsGeneratedScenario base existing constraints.environmental_hazards.length lot_area s₀ := by
    intro ed1List hed hl
    subst hl
    unfold score_scenarios at hs
    rw [List.mem_mergeSort] at hs
    obtain ⟨t, ht, rfl⟩ := List.mem_map.mp hs
    refine ⟨t, rfl, ?_⟩
    unfold IsGeneratedScenario
    simp only [List.mem_append, List.mem_singleton] at ht
    rcases ht with ((((((((((h | h) | h) | h) | h) | h) | h) | h) | h) | h) | h)
    · exact Or.inl h
    · refine Or.inr (Or.inl ?_)
      rcases htoc : incentives.toc_tier with _ | tier <;> rw [htoc] at h <;> simp at h
      exact ⟨tier, h.2⟩
    · exact Or.inr (Or.inr (Or.inl (mem_optScen h)))
    · exact Or.inr (Or.inr (Or.inr (Or.inl (mem_optScen h))))
    · exact Or.inr (Or.inr (Or.inr (Or.inr (Or.inl (mem_optScen h)))))
    · exact Or.inr (Or.inr (Or.inr (Or.inr (Or.inr (Or.inl (hed t h))))))
    · exact Or.inr (Or.inr (Or.inr (Or.inr (Or.inr (Or.inr (Or.inl (mem_optScen h)))))))
    · exact Or.inr (Or.inr (Or.inr (Or.inr (Or.inr (Or.inr (Or.inr
        (Or.inl (mem_optScen h))))))))
    · exact Or.inr (Or.inr (Or.inr (Or.inr (Or.inr (Or.inr (Or.inr (Or.inr
        (Or.inl (mem_optScen h)))))))))
    · exact Or.inr (Or.inr (Or.inr (Or.inr (Or.inr (Or.inr (Or.inr (Or.inr (Or.inr
        (Or.inl (mem_optScen h))))))))))
    · exact Or.inr (Or.inr (Or.inr (Or.inr (Or.inr (Or.inr (Or.inr (Or.inr (Or.inr
        (Or.inr (mem_optScen h))))))))))
  simp only [generate_scenarios] at hok
  by_cases hed1 : incentives.ed1_eligible = true
  · rw [if_pos hed1] at hok
    cases hfe : ed1_feasibility base existing constraints.environmental_hazards.length with
    | error msg => rw [hfe] at hok; exact absurd hok (by simp [Except.map])
    | ok f =>
      rw [hfe] at hok
      simp only [Except.map] at hok
      injection hok with hok
      exact key [ed1_scenario base existing f] (by simp) hok.symm
  · rw [if_neg hed1] at hok
    simp only [Except.map] at hok
    injection hok with hok
    exact key [] (by simp) hok.symm

/-- Every scenario shape emitted by the generator applies the replacement
floor before subtracting: totals dominate the existing unit count, and the
net-new field is exactly `total - existing` (the By-Right clamp `max(0, ...)`
is arithmetically redundant). -/
theorem generated_scenario_facts {base : BaseZoning} {existing : ExistingConditions}
    {hazardCount : ℕ} {lot_area : ℚ} {s₀ : DevelopmentScenario}
    (h : IsGeneratedScenario base existing hazardCount lot_area s₀) :
    (existing.units : ℚ) ≤ s₀.total_units ∧
      s₀.net_new_units = s₀.total_units - (existing.units : ℚ) := by
  have byRightNet :
      (by_right_scenario base existing hazardCount).net_new_units
        = (by_right_scenario base existing hazardCount).total_units - (existing.units : ℚ) := by
    show max 0 (max base.baseline_units (existing.units : ℚ) - (existing.units : ℚ)) = _
    exact max_eq_right (sub_nonneg.mpr (le_max_right _ _))
  rcases h with h | ⟨t, h⟩ | h | h | h | ⟨f, h⟩ | h | h | h | h | h <;> subst h
  · exact ⟨le_max_right _ _, byRightNet⟩
  all_goals exact ⟨le_max_right _ _, rfl⟩

/-- Totals and net-new fields of any successful generator run. -/
theorem generate_scenarios_total_net {base : BaseZoning} {existing : ExistingConditions}
    {incentives : IncentiveOpportunities} {constraints : Constraints} {lot_area : ℚ}
    {l : List DevelopmentScenario}
    (hok : generate_scenarios base existing incentives constraints lot_area = .ok l) :
    ∀ s ∈ l, (existing.units : ℚ) ≤ s.total_units ∧
      s.net_new_units = s.total_units - (existing.units : ℚ) := by
  intro s hs
  obtain ⟨s₀, rfl, hshape⟩ := generate_scenarios_mem hok hs
  rw [score_scenario_total, score_scenario_net]
  exact generated_scenario_facts hshape

/-- A TOC scenario name can never collide with the SB-684 scenario name. -/
theorem toc_name_ne_sb684 (t : ℤ) :
    "TOC Tier " ++ toString t ≠ "SB-684 Small Site Housing" := by
  intro h
  have h2 : ("TOC Tier ").data ++ (toString t).data
      = ("SB-684 Small Site Housing").data := by
    rw [← String.data_append, h]
  have h3 : 'T' :: (("OC Tier ").data ++ (toString t).data)
      = 'S' :: ("B-684 Small Site Housing").data := h2
  injection h3 with h4 _
  exact absurd h4 (by decide)

/-- C3: for every property record with `is_rso = true`, every scenario emitted
by `_generate_scenarios` satisfies `total_units ≥ existing_units`: each
scenario formula applies the replacement floor `max(candidate_units,
existing_units)`. -/
theorem rso_scenarios_respect_replacement_floor
    (base : BaseZoning) (existing : ExistingConditions)
    (incentives : IncentiveOpportunities) (constraints : Constraints)
    (lot_area : ℚ) (l : List DevelopmentScenario)
    (_hrso : existing.is_rso = true)
    (hok : generate_scenarios base existing incentives constraints lot_area = .ok l) :
    ∀ s ∈ l, (existing.units : ℚ) ≤ s.total_units :=
  fun s hs => (generate_scenarios_total_net hok s hs).1

/-- Witness for C3 at a concrete rent-stabilized input (zone `X`, 500 sq ft
lot, 3 existing RSO units): the run succeeds and every emitted scenario holds
at least the 3 existing units. -/
theorem rso_scenarios_respect_replacement_floor_witness :
    ∃ l, generate_scenarios (analyze_base_zoning "X" "" 500)
        { units := 3, building_sf := 0, year_built := "", is_rso := true,
          replacement_required := 3, above_baseline := true,
          demolition_constraints :=
            ["RSO replacement: Must replace existing rent-stabilized units 1:1"] }
        {} ⟨[], [], [], 3⟩ 500 = .ok l ∧
      ∀ s ∈ l, (((3 : ℤ) : ℚ)) ≤ s.total_units := by
  exact ⟨_, rfl, rso_scenarios_respect_replacement_floor
    (analyze_base_zoning "X" "" 500)
    { units := 3, building_sf := 0, year_built := "", is_rso := true,
      replacement_required := 3, above_baseline := true,
      demolition_constraints :=
        ["RSO replacement: Must replace existing rent-stabilized units 1:1"] }
    {} ⟨[], [], [], 3⟩ 500 _ rfl rfl⟩

/-- C5 counterexample: the claim that some input can make a scenario other
than By-Right report a negative net-new count is false — no reachable
scenario, at any input, has `net_new_units < 0`, because every formula applies
`max(candidate, existing)` before the subtraction. -/
theorem no_scenario_reports_negative_net_new :
    ¬ ∃ (base : BaseZoning) (existing : ExistingConditions)
        (incentives : IncentiveOpportunities) (constraints : Constraints)
        (lot_area : ℚ) (l : List DevelopmentScenario) (s : DevelopmentScenario),
      generate_scenarios base existing incentives constraints lot_area = .ok l ∧
      s ∈ l ∧ s.name ≠ "By-Right" ∧ s.net_new_units < 0 := by
  rintro ⟨b, e, i, c, la, l, s, hok, hs, -, hneg⟩
  obtain ⟨hle, hnet⟩ := generate_scenarios_total_net hok s hs
  rw [hnet] at hneg
  linarith

/-- C5 amended: in every emitted scenario `net_new_units` equals
`total_units - existing_units` (the By-Right `max(0, ...)` clamp is
arithmetically redundant), and consequently `net_new_units` is never
negative in any scenario. -/
theorem net_new_equals_total_minus_existing_nonneg
    (base : BaseZoning) (existing : ExistingConditions)
    (incentives : IncentiveOpportunities) (constraints : Constraints)
    (lot_area : ℚ) (l : List DevelopmentScenario)
    (hok : generate_scenarios base existing incentives constraints lot_area = .ok l) :
    ∀ s ∈ l, s.net_new_units = s.total_units - (existing.units : ℚ) ∧
      0 ≤ s.net_new_units := by
  intro s hs
  obtain ⟨hle, hnet⟩ := generate_scenarios_total_net hok s hs
  refine ⟨hnet, ?_⟩
  rw [hnet]
  linarith

/-- Witness for the amended C5 at a concrete input. -/
theorem net_new_equals_total_minus_existing_nonneg_witness :
    ∃ l, generate_scenarios (analyze_base_zoning "R3" "1" 8000)
        { units := 2, building_sf := 1500, year_built := "", is_rso := false,
          replacement_required := 0, above_baseline := false,
          demolition_constraints := [] }
        {} ⟨[], [], [], 0⟩ 8000 = .ok l ∧
      ∀ s ∈ l, s.net_new_units = s.total_units - (((2 : ℤ) : ℚ)) ∧ 0 ≤ s.net_new_units := by
  exact ⟨_, rfl, net_new_equals_total_minus_existing_nonneg
    (analyze_base_zoning "R3" "1" 8000)
    { units := 2, building_sf := 1500, year_built := "", is_rso := false,
      replacement_required := 0, above_baseline := false,
      demolition_constraints := [] }
    {} ⟨[], [], [], 0⟩ 8000 _ rfl⟩

/-- C6 counterexample: zone R3, 5,000 sq ft lot (SB-684 eligible), 12 existing
units — the emitted SB-684 scenario reports `total_units = 12 > 10`. -/
theorem sb684_total_exceeds_ten :
    ∃ l, generate_scenarios (analyze_base_zoning "R3" "1" 5000)
        { units := 12, building_sf := 0, year_built := "", is_rso := false,
          replacement_required := 0, above_baseline := true,
          demolition_constraints := [] }
        { sb684_eligible := true } ⟨[], [], [], 0⟩ 5000 = .ok l ∧
      ∃ s ∈ l, s.name = "SB-684 Small Site Housing" ∧ (10 : ℚ) < s.total_units := by
  refine ⟨_, rfl, ?_⟩
  refine ⟨score_scenario (analyze_base_zoning "R3" "1" 5000)
      { units := 12, building_sf := 0, year_built := "", is_rso := false,
        replacement_required := 0, above_baseline := true,
        demolition_constraints := [] } 5000
      (sb684_scenario (analyze_base_zoning "R3" "1" 5000)
        { units := 12, building_sf := 0, year_built := "", is_rso := false,
          replacement_required := 0, above_baseline := true,
          demolition_constraints := [] }), ?_, rfl, ?_⟩
  · unfold score_scenarios
    rw [List.mem_mergeSort]
    refine List.mem_map_of_mem _ ?_
    simp [optScen]
  · rw [score_scenario_total]
    exact lt_of_lt_of_le (by norm_num) (le_max_right _ _)

/-- C6 amended: the SB-684 program-derived count `min(10, max(baseline, 3))`
never exceeds 10, but the emitted scenario total is `max(that,
existing_units)` — so `total_units ≤ max(10, existing_units)`, and it exceeds
10 exactly when more than 10 units already exist. -/
theorem sb684_total_capped_by_max_ten_existing
    (base : BaseZoning) (existing : ExistingConditions)
    (incentives : IncentiveOpportunities) (constraints : Constraints)
    (lot_area : ℚ) (l : List DevelopmentScenario)
    (hok : generate_scenarios base existing incentives constraints lot_area = .ok l) :
    ∀ s ∈ l, s.name = "SB-684 Small Site Housing" →
      s.total_units ≤ max 10 (existing.units : ℚ) := by
  intro s hs hname
  obtain ⟨s₀, rfl, hshape⟩ := generate_scenarios_mem hok hs
  rw [score_scenario_name] at hname
  rw [score_scenario_total]
  rcases hshape with h | ⟨t, h⟩ | h | h | h | ⟨f, h⟩ | h | h | h | h | h <;> subst h
  · simp [by_right_scenario] at hname
  · exact absurd hname (toc_name_ne_sb684 t)
  · simp [sdb_scenario] at hname
  · simp [sb9_split_scenario] at hname
  · simp [sb9_duplex_scenario] at hname
  · simp [ed1_scenario] at hname
  · simp [sb35_scenario] at hname
  · simp [ab2011_scenario] at hname
  · simp [ab1287_scenario] at hname
  · simp [sb330_scenario] at hname
  · have h10 : (10.0 : ℚ) = 10 := by norm_num
    simp only [sb684_scenario, h10]
    exact max_le (le_trans (min_le_left _ _) (le_max_left _ _)) (le_max_right _ _)

/-- Witness for the amended C6 at the counterexample input: every SB-684
scenario total is bounded by `max(10, 12) = 12`. -/
theorem sb684_total_capped_by_max_ten_existing_witness :
    ∃ l, generate_scenarios (analyze_base_zoning "R3" "1" 5000)
        { units := 12, building_sf := 0, year_built := "", is_rso := false,
          replacement_required := 0, above_baseline := true,
          demolition_constraints := [] }
        { sb684_eligible := true } ⟨[], [], [], 0⟩ 5000 = .ok l ∧
      ∀ s ∈ l, s.name = "SB-684 Small Site Housing" →
        s.total_units ≤ max 10 (((12 : ℤ) : ℚ)) := by
  exact ⟨_, rfl, sb684_total_capped_by_max_ten_existing
    (analyze_base_zoning "R3" "1" 5000)
    { units := 12, building_sf := 0, year_built := "", is_rso := false,
      replacement_required := 0, above_baseline := true,
      demolition_constraints := [] }
    { sb684_eligible := true } ⟨[], [], [], 0⟩ 5000 _ rfl⟩

theorem mem_uniqueKeysAux (ks : List ℤ) (k : ℤ) : k ∈ uniqueKeysAux ks ↔ k ∈ ks := by
  induction ks using uniqueKeysAux.induct with
  | case1 => simp [uniqueKeysAux]
  | case2 k' ks ih =>
    rw [uniqueKeysAux]
    by_cases hk : k = k'
    · simp [hk]
    · simp only [List.mem_cons, ih, List.mem_filter, decide_eq_true_eq]
      constructor
      · rintro (h | ⟨h, -⟩)
        · exact Or.inl h
        · exact Or.inr h
      · rintro (h | h)
        · exact Or.inl h
        · exact Or.inr ⟨h, hk⟩

theorem nodup_uniqueKeysAux (ks : List ℤ) : (uniqueKeysAux ks).Nodup := by
  induction ks using uniqueKeysAux.induct with
  | case1 => simp [uniqueKeysAux]
  | case2 k' ks ih =>
    rw [uniqueKeysAux]
    refine List.nodup_cons.mpr ⟨?_, ih⟩
    rw [mem_uniqueKeysAux]
    simp

/-- Specification of `pickMin`: it returns a member of `m :: rest` whose
simplicity score is minimal, and everything strictly before it in the list
has a strictly larger score (so ties keep the first occurrence, as Python
`min` does). -/
theorem pickMin_spec (rest : List DevelopmentScenario) (m : DevelopmentScenario) :
    ∃ pre post, m :: rest = pre ++ pickMin m rest :: post ∧
      (∀ t ∈ m :: rest, simplicity_score_of (pickMin m rest) ≤ simplicity_score_of t) ∧
      ∀ t ∈ pre, simplicity_score_of (pickMin m rest) < simplicity_score_of t := by
  induction rest generalizing m with
  | nil => exact ⟨[], [], rfl, by simp [pickMin], by simp⟩
  | cons s rest ih =>
    by_cases h : simplicity_score_of s < simplicity_score_of m
    · obtain ⟨pre, post, hdec, hmin, hpre⟩ := ih s
      have hpick : pickMin m (s :: rest) = pickMin s rest := by simp [pickMin, h]
      rw [hpick]
      refine ⟨m :: pre, post, ?_, ?_, ?_⟩
      · rw [List.cons_append, ← hdec]
      · intro t ht
        rcases List.mem_cons.mp ht with rfl | ht'
        · exact le_trans (hmin s (List.mem_cons_self _ _)) (le_of_lt h)
        · exact hmin t ht'
      · intro t ht
        rcases List.mem_cons.mp ht with rfl | ht'
        · exact lt_of_le_of_lt (hmin s (List.mem_cons_self _ _)) h
        · exact hpre t ht'
    · obtain ⟨pre, post, hdec, hmin, hpre⟩ := ih m
      have hpick : pickMin m (s :: rest) = pickMin m rest := by simp [pickMin, h]
      rw [hpick]
      have hms : simplicity_score_of m ≤ simplicity_score_of s := le_of_not_lt h
      cases pre with
      | nil =>
        rw [List.nil_append] at hdec
        injection hdec with h1 h2
        refine ⟨[], s :: rest, ?_, ?_, by simp⟩
        · rw [List.nil_append, ← h1]
        · intro t ht
          rcases List.mem_cons.mp ht with rfl | ht'
          · exact hmin t (List.mem_cons_self _ _)
          · rcases List.mem_cons.mp ht' with rfl | ht''
            · exact le_trans (hmin m (List.mem_cons_self _ _)) hms
            · exact hmin t (List.mem_cons_of_mem _ ht'')
      | cons p pre' =>
        rw [List.cons_append] at hdec
        injection hdec with h1 h2
        refine ⟨m :: s :: pre', post, ?_, ?_, ?_⟩
        · rw [List.cons_append, List.cons_append, ← h2]
        · intro t ht
          rcases List.mem_cons.mp ht with rfl | ht'
          · exact hmin t (List.mem_cons_self _ _)
          · rcases List.mem_cons.mp ht' with rfl | ht''
            · exact le_trans (hmin m (List.mem_cons_self _ _)) hms
            · exact hmin t (List.mem_cons_of_mem _ ht'')
        · intro t ht
          rcases List.mem_cons.mp ht with rfl | ht'
          · have hwm := hpre p (List.mem_cons_self _ _)
            rwa [← h1] at hwm
          · rcases List.mem_cons.mp ht' with rfl | ht''
            · have hwm := hpre p (List.mem_cons_self _ _)
              rw [← h1] at hwm
              exact lt_of_lt_of_le hwm hms
            · exact hpre t (List.mem_cons_of_mem _ ht'')

theorem roundedUnits_annotate (k : ℤ) (t : DevelopmentScenario) :
    roundedUnits (annotateSurvivor k t) = roundedUnits t := rfl

theorem pickFromGroup_isSome {g : List DevelopmentScenario} (hg : g ≠ []) (k : ℤ) :
    (pickFromGroup k g).isSome := by
  match g with
  | [] => exact absurd rfl hg
  | [s] => rfl
  | a :: b :: rest => rfl

/-- Case analysis of the per-group choice: a singleton group passes its
scenario through unchanged; a larger group yields the annotated first
minimum-score member. -/
theorem pickFromGroup_cases {g : List DevelopmentScenario} {k : ℤ}
    {s : DevelopmentScenario} (h : pickFromGroup k g = some s) :
    (∃ t, g = [t] ∧ s = t) ∨
    (2 ≤ g.length ∧ ∃ t, t ∈ g ∧ s = annotateSurvivor k t ∧
      (∀ u ∈ g, simplicity_score_of t ≤ simplicity_score_of u) ∧
      ∃ pre post, g = pre ++ t :: post ∧
        ∀ u ∈ pre, simplicity_score_of t < simplicity_score_of u) := by
  match g with
  | [] => simp [pickFromGroup] at h
  | [t] =>
    left
    refine ⟨t, rfl, ?_⟩
    injection h with h
    exact h.symm
  | a :: b :: rest =>
    right
    injection h with h
    obtain ⟨pre, post, hdec, hmin, hpre⟩ := pickMin_spec (b :: rest) a
    refine ⟨by simp, pickMin a (b :: rest), ?_, h.symm, hmin, pre, post, hdec, hpre⟩
    rw [hdec]
    exact List.mem_append_right _ (List.mem_cons_self _ _)

/-- Filtering a keyed `filterMap` on a key of a nodup key list isolates
exactly the image of that key. -/
theorem filterMap_filter_key (f : ℤ → Option DevelopmentScenario)
    (hf : ∀ k' s, f k' = some s → roundedUnits s = k') :
    ∀ (ks : List ℤ), ks.Nodup → ∀ k ∈ ks, ∀ s, f k = some s →
      (ks.filterMap f).filter (fun t => decide (roundedUnits t = k)) = [s] := by
  intro ks
  induction ks with
  | nil => simp
  | cons k' ks ih =>
    intro hnd k hk s hfk
    rcases List.mem_cons.mp hk with rfl | hk'
    · rw [List.filterMap_cons_some hfk]
      rw [List.filter_cons_of_pos (by simp [hf k s hfk])]
      have htail : (ks.filterMap f).filter (fun t => decide (roundedUnits t = k)) = [] := by
        rw [List.filter_eq_nil_iff]
        intro a ha
        obtain ⟨k'', hk'', hfk''⟩ := List.mem_filterMap.mp ha
        have hr := hf k'' a hfk''
        have hne : k'' ≠ k := by
          rintro rfl
          exact (List.nodup_cons.mp hnd).1 hk''
        simp [hr, hne]
      rw [htail]
    · have hne : k' ≠ k := by
        rintro rfl
        exact (List.nodup_cons.mp hnd).1 hk'
      cases hft : f k' with
      | none =>
        rw [List.filterMap_cons_none hft]
        exact ih (List.nodup_cons.mp hnd).2 k hk' s hfk
      | some t =>
        rw [List.filterMap_cons_some hft]
        rw [List.filter_cons_of_neg (by simp [hf k' t hft, hne])]
        exact ih (List.nodup_cons.mp hnd).2 k hk' s hfk

/-- For every rounded-unit key present in the input, the consolidated output
contains exactly the survivor chosen by `pickFromGroup` for that key. -/
theorem consolidate_filter (l : List DevelopmentScenario) (k : ℤ)
    (hk : k ∈ l.map roundedUnits) :
    ∃ s, pickFromGroup k (l.filter (fun t => decide (roundedUnits t = k))) = some s ∧
      (consolidate_scenarios l).filter (fun t => decide (roundedUnits t = k)) = [s] := by
  obtain ⟨a, ha, hak⟩ := List.mem_map.mp hk
  have hag : a ∈ l.filter (fun t => decide (roundedUnits t = k)) :=
    List.mem_filter.mpr ⟨ha, by simp [hak]⟩
  have hgne : l.filter (fun t => decide (roundedUnits t = k)) ≠ [] := by
    intro h0
    rw [h0] at hag
    simp at hag
  obtain ⟨s, hs⟩ := Option.isSome_iff_exists.mp (pickFromGroup_isSome hgne k)
  refine ⟨s, hs, ?_⟩
  unfold consolidate_scenarios
  refine filterMap_filter_key _ ?_ _ (nodup_uniqueKeysAux _)
    k ((mem_uniqueKeysAux _ _).mpr hk) s hs
  intro k' s' h'
  rcases pickFromGroup_cases h' with ⟨t, hgt, rfl⟩ | ⟨-, t, htg, rfl, -⟩
  · have hmem : s' ∈ l.filter (fun u => decide (roundedUnits u = k')) := by
      rw [hgt]
      exact List.mem_cons_self _ _
    have := (List.mem_filter.mp hmem).2
    simpa using this
  · have := (List.mem_filter.mp htg).2
    rw [roundedUnits_annotate]
    simpa using this

/-- C4: for any list of scenarios and any rounded-unit-count value reached by
some scenario, consolidation keeps exactly one scenario with that rounded
count; a singleton group passes through unchanged; for a larger group the
survivor is the annotated first scenario attaining the minimum simplicity
score (affordability 0/5/10 + approval 0/2/5 + feasibility 0/3/8), every
group member scoring at least as much and every earlier member strictly
more. -/
theorem consolidation_keeps_unique_simplest
    (l : List DevelopmentScenario) (k : ℤ) (hk : k ∈ l.map roundedUnits) :
    ((consolidate_scenarios l).filter (fun t => decide (roundedUnits t = k))).length = 1 ∧
    ∀ s, (consolidate_scenarios l).filter (fun t => decide (roundedUnits t = k)) = [s] →
      ((∀ g, l.filter (fun t => decide (roundedUnits t = k)) = [g] → s = g) ∧
       (2 ≤ (l.filter (fun t => decide (roundedUnits t = k))).length →
         ∃ s₀ pre post,
           l.filter (fun t => decide (roundedUnits t = k)) = pre ++ s₀ :: post ∧
           s = annotateSurvivor k s₀ ∧
           s.simplicity_score = some (simplicity_score_of s₀) ∧
           (∀ t ∈ l.filter (fun t => decide (roundedUnits t = k)),
             simplicity_score_of s₀ ≤ simplicity_score_of t) ∧
           ∀ t ∈ pre, simplicity_score_of s₀ < simplicity_score_of t)) := by
  obtain ⟨s, hpick, hfil⟩ := consolidate_filter l k hk
  refine ⟨by rw [hfil]; rfl, ?_⟩
  intro s' hs'
  rw [hfil] at hs'
  injection hs' with hs1 hs2
  subst hs1
  rcases pickFromGroup_cases hpick with ⟨t, hgt, rfl⟩ |
    ⟨hlen, t, htg, rfl, hmin, pre, post, hdec, hpre⟩
  · constructor
    · intro g hg
      have h12 := hgt.symm.trans hg
      simpa using h12
    · intro h2
      rw [hgt] at h2
      simp at h2
  · constructor
    · intro g hg
      rw [hg] at hlen
      simp at hlen
    · intro h2
      exact ⟨t, pre, post, hdec, rfl, rfl, hmin, hpre⟩

/-- C10: a scenario alone in its rounded-unit-count group leaves consolidation
unchanged — in particular with no `simplicity_score` attribute — so the
getattr read in the scorer defaults to 0 and the scenario
receives the maximum 4.0-point simplicity contribution, regardless of its
affordability requirement, approval path or feasibility. -/
theorem singleton_group_gets_max_simplicity_points
    (l : List DevelopmentScenario) (s : DevelopmentScenario)
    (hmem : s ∈ l)
    (hsingle : l.filter (fun t => decide (roundedUnits t = roundedUnits s)) = [s])
    (hnone : s.simplicity_score = none) :
    s ∈ consolidate_scenarios l ∧
    s.simplicity_score.getD 0 = 0 ∧
    simplicityPoints s = 4 := by
  have hk : roundedUnits s ∈ l.map roundedUnits := List.mem_map_of_mem _ hmem
  obtain ⟨s', hpick, hfil⟩ := consolidate_filter l (roundedUnits s) hk
  rw [hsingle] at hpick
  have hss : s' = s := by
    injection hpick with h
    exact h.symm
  subst hss
  refine ⟨?_, ?_, ?_⟩
  · have : s' ∈ (consolidate_scenarios l).filter
        (fun t => decide (roundedUnits t = roundedUnits s')) := by
      rw [hfil]
      exact List.mem_cons_self _ _
    exact List.mem_of_mem_filter this
  · rw [hnone]
    rfl
  · rw [simplicityPoints, hnone]
    norm_num [simplicityLadder]

/-- Constructed scenario with known penalty components: simplicity score 0. -/
def c4sA : DevelopmentScenario :=
  { name := "A", total_units := 5, net_new_units := 0,
    affordability_required := "None", approval_path := "Ministerial approval",
    feasibility := "High - easy" }

/-- Constructed scenario with known penalty components: simplicity score 18. -/
def c4sB : DevelopmentScenario :=
  { name := "B", total_units := 5, net_new_units := 0,
    affordability_required := "20% affordable", approval_path := "Discretionary review",
    feasibility := "Low - tough" }

/-- Witness for C4 at a concrete two-scenario group with equal rounded unit
counts: the key 5 is reached and exactly one scenario with that rounded count
survives consolidation. -/
theorem consolidation_keeps_unique_simplest_witness :
    (5 : ℤ) ∈ [c4sA, c4sB].map roundedUnits ∧
    ((consolidate_scenarios [c4sA, c4sB]).filter
      (fun t => decide (roundedUnits t = 5))).length = 1 := by
  have hA : roundedUnits c4sA = 5 := by norm_num [roundedUnits, c4sA, pyRound]
  have hk : (5 : ℤ) ∈ [c4sA, c4sB].map roundedUnits := by
    simp [List.map, hA]
  exact ⟨hk, (consolidation_keeps_unique_simplest [c4sA, c4sB] 5 hk).1⟩

/-- Constructed scenario whose rounded count is alone in its group despite
maximal penalty components (100 percent affordability, discretionary path,
Low feasibility). -/
def c10sA : DevelopmentScenario :=
  { name := "A", total_units := 1, net_new_units := 0,
    affordability_required := "100% affordable", approval_path := "Discretionary",
    feasibility := "Low - hard" }

/-- Second constructed scenario with a different rounded count. -/
def c10sB : DevelopmentScenario :=
  { name := "B", total_units := 7, net_new_units := 0,
    affordability_required := "None", approval_path := "Ministerial",
    feasibility := "High - ok" }

/-- Witness for C10: in the list `[c10sA, c10sB]` the first scenario is alone
in its rounded-unit group, survives consolidation unchanged, and receives the
maximum 4-point simplicity contribution despite its penalties. -/
theorem singleton_group_gets_max_simplicity_points_witness :
    c10sA ∈ consolidate_scenarios [c10sA, c10sB] ∧
    c10sA.simplicity_score.getD 0 = 0 ∧
    simplicityPoints c10sA = 4 := by
  have hA : roundedUnits c10sA = 1 := by norm_num [roundedUnits, c10sA, pyRound]
  have hB : roundedUnits c10sB = 7 := by norm_num [roundedUnits, c10sB, pyRound]
  refine singleton_group_gets_max_simplicity_points [c10sA, c10sB] c10sA
    (List.mem_cons_self _ _) ?_ rfl
  simp [List.filter, hA, hB]

theorem lookup_pos_of_table (l : List (String × ℤ)) (hl : ∀ p ∈ l, 0 < p.2) :
    ∀ z f, l.lookup z = some f → 0 < f := by
  induction l with
  | nil => intro z f h; simp [List.lookup] at h
  | cons p l ih =>
    intro z f h
    obtain ⟨k, v⟩ := p
    rw [List.lookup] at h
    cases hz : (z == k) with
    | true =>
      rw [hz] at h
      injection h with h
      rw [← h]
      exact hl (k, v) (List.mem_cons_self _ _)
    | false =>
      rw [hz] at h
      exact ih (fun q hq => hl q (List.mem_cons_of_mem _ hq)) z f h

/-- C7: for every zone in the density table `baseline_units` is
`lot_area / density_factor`; an unlisted zone gets density factor 1000; the
baseline is 0 (without error) when the lot area is 0 or the density factor is
0 (the source guard `if density_factor > 0 else 0`). -/
theorem baseline_units_density_table_spec (zone height_district : String) (lot_area : ℚ) :
    (∀ f, DENSITY_FACTORS.lookup zone = some f →
      (analyze_base_zoning zone height_district lot_area).baseline_units
        = lot_area / (f : ℚ)) ∧
    (DENSITY_FACTORS.lookup zone = none →
      (analyze_base_zoning zone height_district lot_area).density_factor = 1000) ∧
    (lot_area = 0 → (analyze_base_zoning zone height_district lot_area).baseline_units = 0) ∧
    (∀ df : ℤ, df = 0 → baselineUnitsOf df lot_area = 0) := by
  refine ⟨?_, ?_, ?_, ?_⟩
  · intro f hf
    have hfpos : 0 < f := by
      refine lookup_pos_of_table DENSITY_FACTORS ?_ zone f hf
      decide
    show baselineUnitsOf ((DENSITY_FACTORS.lookup zone).getD 1000) lot_area = _
    rw [hf]
    show baselineUnitsOf f lot_area = _
    rw [baselineUnitsOf, if_pos hfpos]
  · intro hf
    show (DENSITY_FACTORS.lookup zone).getD 1000 = 1000
    rw [hf]
    rfl
  · intro h0
    subst h0
    show baselineUnitsOf ((DENSITY_FACTORS.lookup zone).getD 1000) 0 = 0
    rw [baselineUnitsOf]
    split
    · exact zero_div _
    · rfl
  · intro df hdf
    subst hdf
    rfl

/-- Witness for C7: zone R4 (listed, factor 400) on a 10,000 sq ft lot; an
unlisted zone gets factor 1000; zero lot area and zero density factor give a
zero baseline. -/
theorem baseline_units_density_table_spec_witness :
    (analyze_base_zoning "R4" "2" 10000).baseline_units = 10000 / ((400 : ℤ) : ℚ) ∧
    (analyze_base_zoning "QQ" "1" 10000).density_factor = 1000 ∧
    (analyze_base_zoning "R4" "2" 0).baseline_units = 0 ∧
    baselineUnitsOf 0 10000 = 0 :=
  ⟨(baseline_units_density_table_spec "R4" "2" 10000).1 400 (by decide),
   (baseline_units_density_table_spec "QQ" "1" 10000).2.1 (by decide),
   (baseline_units_density_table_spec "R4" "2" 0).2.2.1 rfl,
   (baseline_units_density_table_spec "R4" "2" 10000).2.2.2 0 rfl⟩

/-- C8: with `baseline_units > 0`, strictly increasing the ratio
`total_units / baseline_units` never decreases the unit-yield score component
`min(ratio * 1.5, 3.0)`, and the component never exceeds its 3.0 cap. -/
theorem unit_yield_monotone_capped (baseline t1 t2 : ℚ)
    (hb : 0 < baseline) (hlt : t1 / baseline < t2 / baseline) :
    unitYieldPoints baseline t1 ≤ unitYieldPoints baseline t2 ∧
    unitYieldPoints baseline t2 ≤ 3.0 := by
  unfold unitYieldPoints
  rw [if_pos hb, if_pos hb]
  constructor
  · refine min_le_min ?_ (le_refl _)
    have h15 : (0 : ℚ) ≤ 1.5 := by norm_num
    exact mul_le_mul_of_nonneg_right (le_of_lt hlt) h15
  · exact min_le_right _ _

/-- Witness for C8 at baseline 1, totals 1 and 2. -/
theorem unit_yield_monotone_capped_witness :
    (0 : ℚ) < 1 ∧ (1 : ℚ) / 1 < 2 / 1 ∧
    (unitYieldPoints 1 1 ≤ unitYieldPoints 1 2 ∧ unitYieldPoints 1 2 ≤ 3.0) :=
  ⟨by norm_num, by norm_num,
   unit_yield_monotone_capped 1 1 2 (by norm_num) (by norm_num)⟩

/-- C2 counterexample: a non-empty, non-numeric `year_built` string makes both
the existing-conditions analyzer and the constraint analyzer raise
`ValueError` — the guard `int(year_built or 0)` only covers empty input. -/
theorem year_parse_raises_on_malformed :
    analyze_existing_conditions 4 1000 "unknown" false 10
      = .error "ValueError: invalid literal for int() with base 10" ∧
    analyze_constraints false false false
      { units := 4, building_sf := 1000, year_built := "unknown", is_rso := false,
        replacement_required := 0, above_baseline := false, demolition_constraints := [] }
      = .error "ValueError: invalid literal for int() with base 10" := by
  constructor <;> rfl

/-- C2 amended: the analyzers complete without raising exactly when the
year-built field is empty (guard short-circuits) or parses as an integer; a
non-empty malformed year raises `ValueError` in both. -/
theorem year_parse_ok_iff_empty_or_numeric (existing_units : ℤ) (building_sf : ℚ)
    (year_built : String) (is_rso : Bool) (baseline_units : ℚ)
    (methane fault liquefaction : Bool) (existing : ExistingConditions) :
    ((∃ c, analyze_existing_conditions existing_units building_sf year_built is_rso
        baseline_units = .ok c) ↔
      (year_built = "" ∨ (pyIntOfString year_built).isSome = true)) ∧
    ((∃ c, analyze_constraints methane fault liquefaction existing = .ok c) ↔
      (existing.year_built = "" ∨ (pyIntOfString existing.year_built).isSome = true)) := by
  constructor
  · unfold analyze_existing_conditions
    by_cases hy : year_built = ""
    · simp [hy, Except.map]
    · rw [if_neg hy]
      cases hp : pyIntOfString year_built with
      | none => simp [Except.map, hp, hy]
      | some y => simp [Except.map, hp, hy]
  · unfold analyze_constraints
    by_cases hy : existing.year_built = ""
    · simp [hy, Except.map]
    · rw [if_neg hy]
      cases hp : pyIntOfString existing.year_built with
      | none => simp [Except.map, hp, hy]
      | some y => simp [Except.map, hp, hy]

/-- C9 counterexample: the transit-tier (TOC) bonus tables of the two
implementations are identical functions (`{1: 50, 2: 60, 3: 70, 4: 80}` with
default 50 in both), refuting the claim that they assign different
percentages to the tiers. -/
theorem toc_tables_identical : ZoningEngine.engineTocBonusPct = analyzerTocBonusPct := rfl

/-- Record used by the C9 demonstration (no existing units, so the
replacement floor is inert). -/
def c9ex : ExistingConditions :=
  { units := 0, building_sf := 0, year_built := "", is_rso := false,
    replacement_required := 0, above_baseline := false, demolition_constraints := [] }

/-- C9 amended: the two scenario engines do use different state
density-bonus constants — `zoning_engine` caps at 35 percent while
`development_analyzer` multiplies the baseline by 1.50 (a 50 percent bonus:
baseline 10 yields total 15) — but their TOC bonus tables are identical. -/
theorem engine_constants_sdb_differs_toc_identical :
    (ZoningEngine.analyze_state_density_bonus "R3").bonus_pct = 35 ∧
    (analyze_base_zoning "R3" "1" 8000).baseline_units = 10 ∧
    (sdb_scenario (analyze_base_zoning "R3" "1" 8000) c9ex).total_units = 15 ∧
    ZoningEngine.engineTocBonusPct = analyzerTocBonusPct := by
  have hbase : (analyze_base_zoning "R3" "1" 8000).baseline_units = 10 := by
    show baselineUnitsOf ((DENSITY_FACTORS.lookup "R3").getD 1000) 8000 = 10
    rw [show DENSITY_FACTORS.lookup "R3" = some 800 from by decide]
    rw [baselineUnitsOf, if_pos (by norm_num)]
    norm_num
  refine ⟨rfl, hbase, ?_, rfl⟩
  show max ((analyze_base_zoning "R3" "1" 8000).baseline_units * 1.50) ((c9ex.units : ℤ) : ℚ) = 15
  rw [hbase]
  show max ((10 : ℚ) * 1.50) (((0 : ℤ) : ℚ)) = 15
  norm_num

theorem score_scenario_feasibility (base : BaseZoning) (existing : ExistingConditions)
    (lot_area : ℚ) (s : DevelopmentScenario) :
    (score_scenario base existing lot_area s).feasibility = s.feasibility := rfl

theorem score_scenarios_singleton (base : BaseZoning) (existing : ExistingConditions)
    (lot_area : ℚ) (x : DevelopmentScenario) :
    score_scenarios base existing lot_area [x]
      = [score_scenario base existing lot_area x] := by
  simp [score_scenarios, List.mergeSort_singleton]

theorem consolidate_singleton (x : DevelopmentScenario) :
    consolidate_scenarios [x] = [x] := by
  unfold consolidate_scenarios
  simp [uniqueKeysAux, pickFromGroup]

/-- An `IncentiveOpportunities` record with every program ineligible. -/
def noIncentives : IncentiveOpportunities :=
  { toc_tier := none, state_density_bonus := false, ed1_eligible := false,
    sb9_eligible := false, sb9_lot_split_eligible := false, sb35_eligible := false,
    sb330_eligible := false, ab2011_eligible := false, ab1287_eligible := false,
    sb684_eligible := false }

/-- A `Constraints` record with no hazards, restrictions or overlays. -/
def emptyConstraints : Constraints := ⟨[], [], [], 0⟩

/-- Existing conditions of the C1 failing input: 2 units, not rent
stabilized, under-built relative to the baseline of 10. -/
def c1ex : ExistingConditions :=
  { units := 2, building_sf := 1500, year_built := "", is_rso := false,
    replacement_required := 0, above_baseline := false, demolition_constraints := [] }

/-- C1 (code bug): on a plain R3-1 parcel (8,000 sq ft, 2 existing units, no
incentives, no hazards) the pipeline emits a scenario whose feasibility string
is rated High (`"High - Clear regulatory path"`), yet the bottom-line filter
`s.feasibility in ["High", "Medium"]` — an exact string comparison against
strings that always carry a `" - reason"` suffix — matches nothing, so the
narrative reports limited development potential instead of selecting the
High-rated scenario with the greatest total units. -/
theorem bottom_line_ignores_high_rated_scenarios :
    ∃ l, analysis_scenarios (analyze_base_zoning "R3" "1" 8000) c1ex noIncentives
        emptyConstraints 8000 = .ok l ∧
      (∃ s ∈ l, strContains s.feasibility "High" = true) ∧
      l.filter (fun s => s.feasibility == "High" || s.feasibility == "Medium") = [] ∧
      generate_bottom_line (analyze_base_zoning "R3" "1" 8000) c1ex l =
        "Site is under-built relative to base R3 density (2 existing vs. 10 allowed). No RSO replacement requirements. Limited development potential under current zoning. Consider zoning changes or alternative strategies." := by
  have hfeas : (by_right_scenario (analyze_base_zoning "R3" "1" 8000) c1ex 0).feasibility
      = "High - Clear regulatory path" := by
    simp [by_right_scenario, c1ex]
  have hgen : generate_scenarios (analyze_base_zoning "R3" "1" 8000) c1ex noIncentives
      emptyConstraints 8000
      = .ok (score_scenarios (analyze_base_zoning "R3" "1" 8000) c1ex 8000
          [by_right_scenario (analyze_base_zoning "R3" "1" 8000) c1ex 0]) := by
    simp [generate_scenarios, noIncentives, optScen, emptyConstraints, Except.map]
  have hl : analysis_scenarios (analyze_base_zoning "R3" "1" 8000) c1ex noIncentives
      emptyConstraints 8000
      = .ok [score_scenario (analyze_base_zoning "R3" "1" 8000) c1ex 8000
          (score_scenario (analyze_base_zoning "R3" "1" 8000) c1ex 8000
            (by_right_scenario (analyze_base_zoning "R3" "1" 8000) c1ex 0))] := by
    rw [analysis_scenarios, hgen, score_scenarios_singleton]
    simp only [Except.map]
    rw [consolidate_singleton, score_scenarios_singleton]
  have hsfeas : (score_scenario (analyze_base_zoning "R3" "1" 8000) c1ex 8000
      (score_scenario (analyze_base_zoning "R3" "1" 8000) c1ex 8000
        (by_right_scenario (analyze_base_zoning "R3" "1" 8000) c1ex 0))).feasibility
      = "High - Clear regulatory path" := by
    rw [score_scenario_feasibility, score_scenario_feasibility, hfeas]
  have hp : ((score_scenario (analyze_base_zoning "R3" "1" 8000) c1ex 8000
      (score_scenario (analyze_base_zoning "R3" "1" 8000) c1ex 8000
        (by_right_scenario (analyze_base_zoning "R3" "1" 8000) c1ex 0))).feasibility == "High"
      || (score_scenario (analyze_base_zoning "R3" "1" 8000) c1ex 8000
      (score_scenario (analyze_base_zoning "R3" "1" 8000) c1ex 8000
        (by_right_scenario (analyze_base_zoning "R3" "1" 8000) c1ex 0))).feasibility == "Medium")
      = false := by
    rw [hsfeas]
    decide
  have hbase : (analyze_base_zoning "R3" "1" 8000).baseline_units = 10 := by
    show baselineUnitsOf ((DENSITY_FACTORS.lookup "R3").getD 1000) 8000 = 10
    rw [show DENSITY_FACTORS.lookup "R3" = some 800 from by decide]
    rw [baselineUnitsOf, if_pos (by norm_num)]
    norm_num
  have hfmt : format0f (analyze_base_zoning "R3" "1" 8000).baseline_units = "10" := by
    rw [format0f, hbase]
    rw [show pyRound (10 : ℚ) = 10 from by norm_num [pyRound]]
    rfl
  refine ⟨_, hl, ?_, ?_, ?_⟩
  · exact ⟨_, List.mem_cons_self _ _, by rw [hsfeas]; decide⟩
  · simp only [List.filter, hp]
  · rw [generate_bottom_line]
    simp only [List.filter, hp, c1ex, hfmt]
    rfl

end LotExplore
